import Mathlib

/-!
# ProcesoPar: paired processes over pipes (POSIX build)

A shallow embedding of the library functions `lanzarProcesoPar`,
`establecerFuncionDeEscucha`, `hiloEscucha`, `enviarMensajeProcesoPar` and
`destruirProcesoPar` (the `#else` branches, i.e. the Linux implementation) and
of the main loop of the example subordinate `examples/proceso_hijo.c`,
together with the properties of the specification that concern them.

Conventions of the embedding:

* C `int`, `pid_t` and `ssize_t` values are `Int`; no arithmetic is performed on
  them by the embedded code, only comparisons, so no wrap-around is involved.
* `Estado_t` (`unsigned int`) is `Nat`, with the eight constants of the header.
* A `char` buffer is a `List Nat` of byte values.
* A pointer that may be `NULL` is an `Option`. A non-`NULL` `ProcesoPar_t *` is
  the pair of the address of the block and the current contents of the block.
* A function pointer `FuncionEscucha_t` is the address (`Nat`) of the function;
  what the function at an address returns is given by a separate table.
* Every operating-system or library call is recorded, in program order, in a
  trace of `Evento`s. Results that the program cannot determine (whether
  `malloc`, `pipe`, `pthread_create` succeed, what `fork`, `read`, `write`
  return) are inputs of the embedded functions.
-/

namespace ProcesosPares

/-! ## Types and status codes (`include/ProcesoPar.h`) -/

/-- Status code type, `typedef unsigned int Estado_t`. -/
abbrev Estado_t := Nat

def E_OK : Estado_t := 0
def E_PAR_INC : Estado_t := 1
def E_NO_MEMORIA : Estado_t := 2
def E_CREAR_PIPE : Estado_t := 3
def E_CREAR_PROCESO : Estado_t := 4
def E_ENVIO_FALLO : Estado_t := 5
def E_PROCESO_INACT : Estado_t := 6
def E_CREAR_HILO : Estado_t := 7

/-- The entity `struct ProcesoPar` of the POSIX build. The two `int[2]` arrays are
pairs: first component index 0 (read end), second component index 1 (write end). -/
structure ProcesoPar_t where
  pid : Int
  pipeEntrada : Int × Int
  pipeSalida : Int × Int
  hiloEscucha : Nat
  funcionEscucha : Option Nat
  activo : Int
deriving DecidableEq, Repr

/-- A possibly-`NULL` pointer to an entity: address and contents of the block. -/
abbrev PtrProcesoPar := Option (Nat × ProcesoPar_t)

/-! ## The environment: descriptors, allocations and the call trace -/

/-- One call made by the program to the operating system or the C library, with
the arguments it passed and, where the program looks at it, the result. -/
inductive Evento where
  | malloc (res : Option Nat)
  | free (dir : Nat)
  | pipe (res : Option (Int × Int))
  | close (fd : Int)
  | fork (res : Int)
  | dup2 (viejo nuevo : Int)
  | execvp (archivo : String) (args : List String)
  | perror (msg : String)
  | exit (codigo : Int)
  | write (fd : Int) (buf : List Nat) (n : Int)
  | read (fd : Int) (n : Nat)
  | pthread_create (arg : Nat) (res : Int)
  | pthread_detach (hilo : Nat)
  | pthread_join (hilo : Nat)
  | callback (f : Nat) (buffer : List Nat) (longitud : Int) (ret : Estado_t)
  | kill (pid : Int) (sig : Int)
  | waitpid (pid : Int) (opciones : Int)
deriving DecidableEq, Repr

/-- What the calling process owns: its open descriptors, its live heap blocks,
and the calls it has made so far (oldest first). -/
structure Mundo where
  fds : Finset Nat
  heap : Finset Nat
  traza : List Evento
deriving DecidableEq

/-- The smallest natural number that is not in `s`. -/
def menorLibre (s : Finset Nat) : Nat :=
  ((List.range (s.card + 1)).find? (fun n => decide (n ∉ s))).getD 0

/-- `malloc(sizeof(ProcesoPar_t))`: when it succeeds, a block at an address that
is not live is handed out. -/
def sysMalloc (ok : Bool) (m : Mundo) : Option Nat × Mundo :=
  if ok then
    let dir := menorLibre m.heap
    (some dir, { m with heap := insert dir m.heap, traza := m.traza ++ [Evento.malloc (some dir)] })
  else
    (none, { m with traza := m.traza ++ [Evento.malloc none] })

/-- `free(p)` on the block at address `dir`. -/
def sysFree (dir : Nat) (m : Mundo) : Mundo :=
  { m with heap := m.heap.erase dir, traza := m.traza ++ [Evento.free dir] }

/-- `pipe(fd)`: when it succeeds the two lowest unused descriptors are allocated
(read end first), as POSIX prescribes; when it fails nothing is allocated. -/
def sysPipe (ok : Bool) (m : Mundo) : Option (Int × Int) × Mundo :=
  if ok then
    let r := menorLibre m.fds
    let w := menorLibre (insert r m.fds)
    (some ((r : Int), (w : Int)),
      { m with fds := insert w (insert r m.fds),
               traza := m.traza ++ [Evento.pipe (some ((r : Int), (w : Int)))] })
  else
    (none, { m with traza := m.traza ++ [Evento.pipe none] })

/-- `close(fd)`: the descriptor, if open, is no longer open afterwards. -/
def sysClose (fd : Int) (m : Mundo) : Mundo :=
  { m with fds := if 0 ≤ fd then m.fds.erase fd.toNat else m.fds,
           traza := m.traza ++ [Evento.close fd] }

/-- `dup2(viejo, nuevo)`: `nuevo` becomes open when `viejo` is an open descriptor. -/
def sysDup2 (viejo nuevo : Int) (m : Mundo) : Mundo :=
  { m with fds := if 0 ≤ viejo ∧ viejo.toNat ∈ m.fds ∧ 0 ≤ nuevo
                  then insert nuevo.toNat m.fds else m.fds,
           traza := m.traza ++ [Evento.dup2 viejo nuevo] }

/-- Record a call that changes neither the descriptors nor the heap. -/
def registrar (ev : Evento) (m : Mundo) : Mundo :=
  { m with traza := m.traza ++ [ev] }

def STDIN_FILENO : Int := 0
def STDOUT_FILENO : Int := 1

/-! ## `lanzarProcesoPar` (`src/lanzarProcesoPar.c`, POSIX branch) -/

/-- How a call of `lanzarProcesoPar` ends in the process that executes it. -/
inductive Salida where
  | retorna (estado : Estado_t)
  | reemplazado
  | termina (codigo : Int)
deriving DecidableEq, Repr

/-- The results the environment gives to the calls made by `lanzarProcesoPar`. -/
structure EntornoLanzar where
  mallocOk : Bool
  basura : ProcesoPar_t
  pipe1Ok : Bool
  pipe2Ok : Bool
  fork : Int
  execOk : Bool

/-- The state after `lanzarProcesoPar`: how it ended, the contents of the output
slot (`none` when the slot pointer is `NULL`), and the process's resources. -/
structure ResLanzar where
  salida : Salida
  procesoPar : Option PtrProcesoPar
  mundo : Mundo

/-- The function `lanzarProcesoPar`. `e.basura` is the indeterminate initial
contents of the block returned by `malloc`; `e.fork` is the value `fork()`
returns in the process being followed (so `0` follows the child). -/
def lanzarProcesoPar (nombreArchivoEjecutable : Option String)
    (listaLineaComando : Option (List String))
    (procesoPar : Option PtrProcesoPar) (e : EntornoLanzar) (m : Mundo) : ResLanzar :=
  match nombreArchivoEjecutable, procesoPar with
  | none, _ => ⟨.retorna E_PAR_INC, procesoPar, m⟩
  | some _, none => ⟨.retorna E_PAR_INC, procesoPar, m⟩
  | some nombre, some _ =>
    match sysMalloc e.mallocOk m with
    | (none, m1) => ⟨.retorna E_NO_MEMORIA, procesoPar, m1⟩
    | (some dir, m1) =>
      let pp0 : ProcesoPar_t := { e.basura with funcionEscucha := none, activo := 0 }
      match sysPipe e.pipe1Ok m1 with
      | (none, m2) => ⟨.retorna E_CREAR_PIPE, procesoPar, sysFree dir m2⟩
      | (some pe, m2) =>
        let pp1 : ProcesoPar_t := { pp0 with pipeEntrada := pe }
        match sysPipe e.pipe2Ok m2 with
        | (none, m3) =>
          ⟨.retorna E_CREAR_PIPE, procesoPar,
            sysFree dir (sysClose pp1.pipeEntrada.2 (sysClose pp1.pipeEntrada.1 m3))⟩
        | (some ps, m3) =>
          let pp2 : ProcesoPar_t := { pp1 with pipeSalida := ps }
          let pp3 : ProcesoPar_t := { pp2 with pid := e.fork }
          let m4 := registrar (Evento.fork e.fork) m3
          if pp3.pid = -1 then
            ⟨.retorna E_CREAR_PROCESO, procesoPar,
              sysFree dir (sysClose pp3.pipeSalida.2 (sysClose pp3.pipeSalida.1
                (sysClose pp3.pipeEntrada.2 (sysClose pp3.pipeEntrada.1 m4))))⟩
          else if pp3.pid = 0 then
            let m5 := sysClose pp3.pipeEntrada.1 m4
            let m6 := sysClose pp3.pipeSalida.2 m5
            let m7 := sysDup2 pp3.pipeSalida.1 STDIN_FILENO m6
            let m8 := sysClose pp3.pipeSalida.1 m7
            let m9 := sysDup2 pp3.pipeEntrada.2 STDOUT_FILENO m8
            let m10 := sysClose pp3.pipeEntrada.2 m9
            let args := match listaLineaComando with
              | some l => l
              | none => [nombre]
            let m11 := registrar (Evento.execvp nombre args) m10
            if e.execOk then
              ⟨.reemplazado, procesoPar, m11⟩
            else
              ⟨.termina 1, procesoPar,
                registrar (Evento.exit 1) (registrar (Evento.perror "execvp") m11)⟩
          else
            let m5 := sysClose pp3.pipeEntrada.2 m4
            let m6 := sysClose pp3.pipeSalida.1 m5
            let pp4 : ProcesoPar_t := { pp3 with activo := 1 }
            ⟨.retorna E_OK, some (some (dir, pp4)), m6⟩

/-! ## `establecerFuncionDeEscucha` (`src/establecerFuncionDeEscucha.c`, POSIX branch) -/

/-- The results of `pthread_create(&procesoPar->hiloEscucha, ...)`: its return
value (`0` on success) and what the `hiloEscucha` field holds after the call,
the identifier of the new thread on success and an unspecified value on
failure. -/
structure EntornoHilo where
  resultado : Int
  hilo : Nat

/-- The state after `establecerFuncionDeEscucha` or `enviarMensajeProcesoPar`:
the status returned, the entity behind the pointer, and the process's resources. -/
structure ResLlamada where
  estado : Estado_t
  procesoPar : PtrProcesoPar
  mundo : Mundo
deriving DecidableEq

/-- The function `establecerFuncionDeEscucha`. A successful `pthread_create`
starts a thread running `hiloEscucha` on the entity whose address it is given.
The call is handed the address of the `hiloEscucha` field, so after it, whether
it succeeded or failed, the field holds what the library left there
(`e.hilo`). -/
def establecerFuncionDeEscucha (procesoPar : PtrProcesoPar) (f : Option Nat)
    (e : EntornoHilo) (m : Mundo) : ResLlamada :=
  match procesoPar, f with
  | none, _ => ⟨E_PAR_INC, procesoPar, m⟩
  | some _, none => ⟨E_PAR_INC, procesoPar, m⟩
  | some (dir, pp), some fn =>
    if pp.activo = 0 then
      ⟨E_PROCESO_INACT, procesoPar, m⟩
    else
      let pp1 : ProcesoPar_t := { pp with funcionEscucha := some fn }
      let resultado := e.resultado
      let pp2 : ProcesoPar_t := { pp1 with hiloEscucha := e.hilo }
      let m1 := registrar (Evento.pthread_create dir resultado) m
      if resultado ≠ 0 then
        ⟨E_CREAR_HILO, some (dir, pp2), m1⟩
      else
        let m2 := registrar (Evento.pthread_detach pp2.hiloEscucha) m1
        ⟨E_OK, some (dir, pp2), m2⟩

/-! ## `enviarMensajeProcesoPar` (`src/enviarMensajeProcesoPar.c`, POSIX branch) -/

/-- The function `enviarMensajeProcesoPar`. `bytesEscritos` is the value that
`write` returns if it is called. -/
def enviarMensajeProcesoPar (procesoPar : PtrProcesoPar) (mensaje : Option (List Nat))
    (longitud : Int) (bytesEscritos : Int) (m : Mundo) : ResLlamada :=
  match procesoPar, mensaje with
  | none, _ => ⟨E_PAR_INC, procesoPar, m⟩
  | some _, none => ⟨E_PAR_INC, procesoPar, m⟩
  | some (_, pp), some buf =>
    if longitud ≤ 0 then
      ⟨E_PAR_INC, procesoPar, m⟩
    else if pp.activo = 0 then
      ⟨E_PROCESO_INACT, procesoPar, m⟩
    else
      let m1 := registrar (Evento.write pp.pipeSalida.2 buf longitud) m
      if bytesEscritos = -1 ∨ bytesEscritos ≠ longitud then
        ⟨E_ENVIO_FALLO, procesoPar, m1⟩
      else
        ⟨E_OK, procesoPar, m1⟩

/-! ## `hiloEscucha` (`src/establecerFuncionDeEscucha.c`, POSIX branch) -/

/-- Size of the listener's buffer, `char buffer[4096]`. -/
def TAM_BUFFER : Nat := 4096

/-- The result of one `read` on the inbound descriptor: either the bytes that
were stored at the start of the buffer (their number is the value returned, `0`
meaning end of file), or an error (`-1`). -/
inductive Lectura where
  | datos (bs : List Nat)
  | error
deriving DecidableEq, Repr

/-- The value `read` returned. -/
def Lectura.bytesLeidos : Lectura → Int
  | Lectura.datos bs => (bs.length : Int)
  | Lectura.error => -1

/-- The bytes `read` stored. -/
def Lectura.contenido : Lectura → List Nat
  | Lectura.datos bs => bs
  | Lectura.error => []

/-- How the listener thread ends: it returns `NULL`, it stays blocked in a `read`
for which no result is available, or it stores outside `buffer`. -/
inductive FinHilo where
  | retorna
  | bloqueado
  | fueraDeLimites
deriving DecidableEq, Repr

/-- The state after the listener thread has consumed the read results. -/
structure ResHilo where
  fin : FinHilo
  buffer : List Nat
  traza : List Evento
deriving DecidableEq

/-- The effect of `read` storing `bs` at the start of `buffer`. -/
def almacenarLectura (buffer bs : List Nat) : List Nat := bs ++ buffer.drop bs.length

/-- The assignment `buffer[i] = v`, defined only for an index inside the array. -/
def almacenar (buffer : List Nat) (i : Nat) (v : Nat) : Option (List Nat) :=
  if i < buffer.length then some (buffer.set i v) else none

/-- The function `hiloEscucha`, as a function of the results of its successive
reads. `tabla f` is the behaviour of the function at address `f`: the status it
returns for a buffer and a length. `traza` accumulates the calls made. -/
def hiloEscucha (tabla : Nat → List Nat → Int → Estado_t) (pp : ProcesoPar_t) :
    List Lectura → List Nat → List Evento → ResHilo
  | lecturas, buffer, traza =>
    if pp.activo = 0 then ⟨FinHilo.retorna, buffer, traza⟩
    else
      match pp.funcionEscucha with
      | none => ⟨FinHilo.retorna, buffer, traza⟩
      | some f =>
        match lecturas with
        | [] => ⟨FinHilo.bloqueado, buffer, traza⟩
        | l :: resto =>
          let traza1 := traza ++ [Evento.read pp.pipeEntrada.1 (TAM_BUFFER - 1)]
          let bytesLeidos := l.bytesLeidos
          if bytesLeidos > 0 then
            let buffer1 := almacenarLectura buffer l.contenido
            match almacenar buffer1 bytesLeidos.toNat 0 with
            | none => ⟨FinHilo.fueraDeLimites, buffer1, traza1⟩
            | some buffer2 =>
              let ret := tabla f buffer2 bytesLeidos
              hiloEscucha tabla pp resto buffer2
                (traza1 ++ [Evento.callback f buffer2 bytesLeidos ret])
          else if bytesLeidos = 0 then
            ⟨FinHilo.retorna, buffer, traza1⟩
          else
            ⟨FinHilo.retorna, buffer, traza1⟩

/-! ## `destruirProcesoPar` (`src/destruirProcesoPar.c`, POSIX branch) -/

/-- The signal number of `SIGTERM` on Linux. -/
def SIGTERM : Int := 15

/-- What the environment answers to the calls of `destruirProcesoPar`: the values
returned by the two `close` calls and by `kill` (the function discards them),
and the behaviour of `waitpid(pid, &status, 0)`, which blocks until the child
has terminated: `some r` when it returns `r`, `none` when it never returns
because the child never terminates. -/
structure EntornoDestruir where
  close1 : Int
  close2 : Int
  kill : Int
  waitpid : Option Int

/-- How a call of `destruirProcesoPar` ends: it returns a status, or it stays
blocked in `waitpid`. -/
inductive FinDestruir where
  | retorna (estado : Estado_t)
  | bloqueado
deriving DecidableEq, Repr

/-- The state after `destruirProcesoPar`: how it ended, the contents of the
block of the entity if it is still allocated (`none` once it has been freed or
when the pointer was `NULL`), the resources of the process, and the calls made
by this invocation, each with the contents of the entity at the time of the
call. -/
structure ResDestruir where
  fin : FinDestruir
  bloque : Option ProcesoPar_t
  mundo : Mundo
  pasos : List (Evento × ProcesoPar_t)
deriving DecidableEq

/-- The function `destruirProcesoPar`. -/
def destruirProcesoPar (procesoPar : PtrProcesoPar) (e : EntornoDestruir) (m : Mundo) :
    ResDestruir :=
  match procesoPar with
  | none => ⟨FinDestruir.retorna E_PAR_INC, none, m, []⟩
  | some (dir, pp) =>
    let pp1 : ProcesoPar_t := { pp with activo := 0 }
    let c1 : ProcesoPar_t × Mundo × List (Evento × ProcesoPar_t) :=
      if pp1.pipeEntrada.1 ≠ -1 then
        ({ pp1 with pipeEntrada := (-1, pp1.pipeEntrada.2) }, sysClose pp1.pipeEntrada.1 m,
          [(Evento.close pp1.pipeEntrada.1, pp1)])
      else (pp1, m, [])
    let pp2 := c1.1
    let m2 := c1.2.1
    let c2 : ProcesoPar_t × Mundo × List (Evento × ProcesoPar_t) :=
      if pp2.pipeSalida.2 ≠ -1 then
        ({ pp2 with pipeSalida := (pp2.pipeSalida.1, -1) }, sysClose pp2.pipeSalida.2 m2,
          c1.2.2 ++ [(Evento.close pp2.pipeSalida.2, pp2)])
      else (pp2, m2, c1.2.2)
    let pp3 := c2.1
    let m3 := c2.2.1
    if pp3.pid > 0 then
      let m4 := registrar (Evento.kill pp3.pid SIGTERM) m3
      let m5 := registrar (Evento.waitpid pp3.pid 0) m4
      let ps5 := c2.2.2 ++ [(Evento.kill pp3.pid SIGTERM, pp3), (Evento.waitpid pp3.pid 0, pp3)]
      match e.waitpid with
      | none => ⟨FinDestruir.bloqueado, some pp3, m5, ps5⟩
      | some _ =>
        let pp4 : ProcesoPar_t := { pp3 with pid := -1 }
        ⟨FinDestruir.retorna E_OK, none, sysFree dir m5, ps5 ++ [(Evento.free dir, pp4)]⟩
    else
      ⟨FinDestruir.retorna E_OK, none, sysFree dir m3, c2.2.2 ++ [(Evento.free dir, pp3)]⟩

/-! ## The example subordinate (`examples/proceso_hijo.c`) -/

/-- The calls made after the first `n` of the trace. -/
def eventosDesde (n : Nat) (m : Mundo) : List Evento := m.traza.drop n

/-- The descriptors handed out by the successful `pipe` calls of a trace. -/
def descriptoresDePipe : List Evento → List Int
  | [] => []
  | Evento.pipe (some (r, w)) :: evs => r :: w :: descriptoresDePipe evs
  | _ :: evs => descriptoresDePipe evs

/-- The calls made by one call of `lanzarProcesoPar` started in `m`. -/
def eventosDeLanzar (nombre : Option String) (lista : Option (List String))
    (procesoPar : Option PtrProcesoPar) (e : EntornoLanzar) (m : Mundo) : List Evento :=
  eventosDesde m.traza.length (lanzarProcesoPar nombre lista procesoPar e m).mundo

/-- A starting state used in examples: descriptors 0, 1 and 2 open, empty heap. -/
def mundoInicial : Mundo := ⟨{0, 1, 2}, ∅, []⟩

/-- An entity used in examples. -/
def ppEjemplo : ProcesoPar_t :=
  { pid := 4321, pipeEntrada := (3, 4), pipeSalida := (5, 6), hiloEscucha := 0,
    funcionEscucha := none, activo := 1 }

/-- The controller's view of a launch whose `execvp` fails in the child:
everything up to and including `fork` succeeds. -/
def envExecFallaPadre : EntornoLanzar :=
  { mallocOk := true, basura := ppEjemplo, pipe1Ok := true, pipe2Ok := true,
    fork := 4321, execOk := false }

/-- The child's view of the same launch: `fork` returned `0`, `execvp` fails. -/
def envExecFallaHijo : EntornoLanzar :=
  { mallocOk := true, basura := ppEjemplo, pipe1Ok := true, pipe2Ok := true,
    fork := 0, execOk := false }

/-- An environment in which every call made by `lanzarProcesoPar` succeeds,
seen from the controller. -/
def envExito : EntornoLanzar :=
  { mallocOk := true, basura := ppEjemplo, pipe1Ok := true, pipe2Ok := true,
    fork := 4321, execOk := true }

/-- A state of the controller after a successful launch from `mundoInicial`:
the entity lives at address 0 and descriptors 3 and 6 are its pipe ends. -/
def mundoActivo : Mundo := ⟨{0, 1, 2, 3, 6}, {0}, []⟩

/-- An entity like `ppEjemplo` after teardown has marked it inactive. -/
def ppInactivo : ProcesoPar_t := { ppEjemplo with activo := 0 }

/-- Whether a call is a thread-creation request. -/
def esCreacionDeHilo : Evento → Bool
  | Evento.pthread_create _ _ => true
  | _ => false

/-- The number of threads started by the calls of a trace: the `pthread_create`
calls that returned `0`. -/
def hilosCreados (evs : List Evento) : Nat :=
  (evs.filter fun ev => match ev with
    | Evento.pthread_create _ res => decide (res = 0)
    | _ => false).length

/-- The callback invocations of a trace, in order: the function called, the
first `longitud` bytes of the buffer it was given, and `longitud`. -/
def invocaciones : List Evento → List (Nat × List Nat × Int)
  | [] => []
  | Evento.callback f buffer longitud _ :: evs =>
    (f, buffer.take longitud.toNat, longitud) :: invocaciones evs
  | _ :: evs => invocaciones evs

/-- The number of `read` calls of a trace. -/
def lecturasHechas : List Evento → Nat
  | [] => 0
  | Evento.read _ _ :: evs => lecturasHechas evs + 1
  | _ :: evs => lecturasHechas evs

/-- Whether a read result carries data: `read` returned at least 1. -/
def esChunk (l : Lectura) : Bool := decide (l.bytesLeidos > 0)

/-- A listener buffer used in examples: 4096 zero bytes. -/
def bufferEjemplo : List Nat := List.replicate 4096 0

/-- An entity like `ppEjemplo` with the callback at address 7 registered. -/
def ppConEscucha : ProcesoPar_t := { ppEjemplo with funcionEscucha := some 7 }

/-- Read results used in examples: `"PONG\n"`, then end of file, then one byte
that is never read. -/
def lecturasEjemplo : List Lectura :=
  [Lectura.datos [80, 79, 78, 71, 10], Lectura.datos [], Lectura.datos [33]]

/-- The calls made by one invocation of `destruirProcesoPar`, in order. -/
def eventosDeDestruir (procesoPar : PtrProcesoPar) (e : EntornoDestruir) (m : Mundo) :
    List Evento :=
  (destruirProcesoPar procesoPar e m).pasos.map Prod.fst

/-- Whether a call waits for the termination of a thread. -/
def esEsperaDeHilo : Evento → Bool
  | Evento.pthread_join _ => true
  | _ => false

/-- Whether the trace contains an event satisfying `q` and some event satisfying
`p` occurs before the first such event. -/
def ocurreAntes (p q : Evento → Bool) (evs : List Evento) : Bool :=
  evs.any q && (evs.takeWhile fun ev => !q ev).any p

/-- An environment of `destruirProcesoPar` in which the child terminates. -/
def envHijoTermina : EntornoDestruir := { close1 := 0, close2 := 0, kill := 0, waitpid := some 4321 }

/-- An environment of `destruirProcesoPar` in which the child ignores `SIGTERM`
and never terminates. -/
def envHijoNoTermina : EntornoDestruir := { close1 := 0, close2 := 0, kill := 0, waitpid := none }

/-- The bounds that the calls of the listener thread have to respect: a `read`
asks for at most `TAM_BUFFER - 1` bytes, and a callback is given a buffer of
`TAM_BUFFER` bytes and a length between 1 and `TAM_BUFFER - 1` at which the
buffer holds the terminating `NUL`. -/
def dentroDeLimites : Evento → Prop
  | Evento.read _ n => n ≤ TAM_BUFFER - 1
  | Evento.callback _ buffer longitud _ =>
    1 ≤ longitud ∧ longitud ≤ ((TAM_BUFFER - 1 : Nat) : Int) ∧ buffer.length = TAM_BUFFER ∧
      buffer.get? longitud.toNat = some 0
  | _ => True

/-- An environment in which `pthread_create` fails with `EAGAIN` (11) after
having written 99 into the thread identifier it was given. -/
def envHiloFalla : EntornoHilo := { resultado := 11, hilo := 99 }

/-! ## Facts about the environment -/

theorem menorLibre_not_mem (s : Finset Nat) : menorLibre s ∉ s := by
  unfold menorLibre
  cases h : (List.range (s.card + 1)).find? (fun n => decide (n ∉ s)) with
  | some n =>
    have := List.find?_some h
    simpa using this
  | none =>
    exfalso
    rw [List.find?_eq_none] at h
    have hsub : Finset.range (s.card + 1) ⊆ s := by
      intro x hx
      have := h x (List.mem_range.mpr (Finset.mem_range.mp hx))
      simpa using this
    have := Finset.card_le_card hsub
    simp at this

/-- C2. A launch of a nonexistent executable on the POSIX build, evaluated: in
the child `execvp` fails and the child exits with code 1, while the call in the
controller returns `E_OK`, stores an entity marked active in the output slot and
keeps descriptors 3 and 6 (the two controller-side pipe ends) open. -/
theorem lanzarProcesoPar_exec_fallido_devuelve_ok :
    (lanzarProcesoPar (some "./no_existe") none (some none) envExecFallaHijo mundoInicial).salida
        = Salida.termina 1 ∧
    (lanzarProcesoPar (some "./no_existe") none (some none) envExecFallaPadre mundoInicial).salida
        = Salida.retorna E_OK ∧
    (lanzarProcesoPar (some "./no_existe") none (some none) envExecFallaPadre
        mundoInicial).procesoPar
        = some (some (0, { pid := 4321, pipeEntrada := (3, 4), pipeSalida := (5, 6),
                           hiloEscucha := 0, funcionEscucha := none, activo := 1 })) ∧
    (lanzarProcesoPar (some "./no_existe") none (some none) envExecFallaPadre mundoInicial).mundo.fds
        = {0, 1, 2, 3, 6} := by
  decide

/-! ## `lanzarProcesoPar`: success and argument checking -/

/-- C3. Whenever `lanzarProcesoPar` returns `E_OK`, the output slot holds an
entity with `activo = 1` and `funcionEscucha = NULL` whose four descriptors are
the ones `pipe` handed out during the call (none of them open before); the
subordinate-side ends `pipeEntrada[1]` and `pipeSalida[0]` have each been closed
once, the controller-side ends `pipeEntrada[0]` and `pipeSalida[1]` have not been
closed, and the descriptors open afterwards are those open before plus exactly
`pipeEntrada[0]` and `pipeSalida[1]`. -/
theorem lanzarProcesoPar_exito (nombre : Option String) (lista : Option (List String))
    (procesoPar : Option PtrProcesoPar) (e : EntornoLanzar) (m : Mundo)
    (hret : (lanzarProcesoPar nombre lista procesoPar e m).salida = Salida.retorna E_OK) :
    ∃ dir pp, (lanzarProcesoPar nombre lista procesoPar e m).procesoPar = some (some (dir, pp)) ∧
      pp.activo = 1 ∧ pp.funcionEscucha = none ∧
      descriptoresDePipe (eventosDeLanzar nombre lista procesoPar e m)
        = [pp.pipeEntrada.1, pp.pipeEntrada.2, pp.pipeSalida.1, pp.pipeSalida.2] ∧
      (∀ fd : Nat, (fd : Int) ∈ descriptoresDePipe (eventosDeLanzar nombre lista procesoPar e m) →
        fd ∉ m.fds) ∧
      (eventosDeLanzar nombre lista procesoPar e m).count (Evento.close pp.pipeEntrada.2) = 1 ∧
      (eventosDeLanzar nombre lista procesoPar e m).count (Evento.close pp.pipeSalida.1) = 1 ∧
      (eventosDeLanzar nombre lista procesoPar e m).count (Evento.close pp.pipeEntrada.1) = 0 ∧
      (eventosDeLanzar nombre lista procesoPar e m).count (Evento.close pp.pipeSalida.2) = 0 ∧
      (∀ fd : Nat, fd ∈ (lanzarProcesoPar nombre lista procesoPar e m).mundo.fds ↔
        (fd ∈ m.fds ∨ (fd : Int) = pp.pipeEntrada.1 ∨ (fd : Int) = pp.pipeSalida.2)) := by
  rcases e with ⟨mal, bas, p1, p2, fk, ex⟩
  have h1 := menorLibre_not_mem m.fds
  have h2 := menorLibre_not_mem (insert (menorLibre m.fds) m.fds)
  have h3 := menorLibre_not_mem (insert (menorLibre (insert (menorLibre m.fds) m.fds))
    (insert (menorLibre m.fds) m.fds))
  have h4 := menorLibre_not_mem (insert (menorLibre (insert (menorLibre (insert (menorLibre m.fds)
    m.fds)) (insert (menorLibre m.fds) m.fds))) (insert (menorLibre (insert (menorLibre m.fds)
    m.fds)) (insert (menorLibre m.fds) m.fds)))
  cases nombre with
  | none => simp [lanzarProcesoPar, E_OK, E_PAR_INC] at hret
  | some nom =>
    cases procesoPar with
    | none => simp [lanzarProcesoPar, E_OK, E_PAR_INC] at hret
    | some sl =>
      cases mal
      · simp [lanzarProcesoPar, sysMalloc, E_OK, E_NO_MEMORIA] at hret
      · cases p1
        · simp [lanzarProcesoPar, sysMalloc, sysPipe, E_OK, E_CREAR_PIPE] at hret
        · cases p2
          · simp [lanzarProcesoPar, sysMalloc, sysPipe, E_OK, E_CREAR_PIPE] at hret
          · by_cases hk : fk = -1
            · simp [lanzarProcesoPar, sysMalloc, sysPipe, hk, E_OK, E_CREAR_PROCESO] at hret
            · by_cases hz : fk = 0
              · simp [lanzarProcesoPar, hk, hz, sysMalloc, sysPipe] at hret
                split at hret <;> simp at hret
              · clear hret
                simp [lanzarProcesoPar, eventosDeLanzar, eventosDesde, descriptoresDePipe,
                  sysMalloc, sysPipe, sysClose, registrar, hk, hz]
                generalize menorLibre m.fds = r at h1 h2 h3 h4 ⊢
                generalize menorLibre (insert r m.fds) = w at h2 h3 h4 ⊢
                generalize menorLibre (insert w (insert r m.fds)) = r2 at h3 h4 ⊢
                generalize menorLibre (insert r2 (insert w (insert r m.fds))) = w2 at h4 ⊢
                simp only [Finset.mem_insert, not_or] at h2 h3 h4
                obtain ⟨a1, b1⟩ := h2
                obtain ⟨a2, a3, b2⟩ := h3
                obtain ⟨a4, a5, a6, b3⟩ := h4
                simp [a1, a2, a3, a4, a5, a6, Ne.symm a1, Ne.symm a2, Ne.symm a3,
                  Ne.symm a4, Ne.symm a5, Ne.symm a6, h1, b1, b2, b3]
                refine ⟨_, _, ⟨rfl, rfl⟩, ?_⟩
                simp [a1, a2, a3, a4, a5, a6, Ne.symm a1, Ne.symm a2, Ne.symm a3,
                  Ne.symm a4, Ne.symm a5, Ne.symm a6]
                intro fd
                constructor
                · rintro ⟨n1, n2, h | h | h | h | h⟩
                  · exact Or.inr (Or.inr h)
                  · exact absurd h n1
                  · exact absurd h n2
                  · exact Or.inr (Or.inl h)
                  · exact Or.inl h
                · rintro (h | h | h)
                  · refine ⟨?_, ?_, Or.inr (Or.inr (Or.inr (Or.inr h)))⟩
                    · rintro rfl; exact b2 h
                    · rintro rfl; exact b1 h
                  · subst h
                    exact ⟨Ne.symm a3, Ne.symm a1, Or.inr (Or.inr (Or.inr (Or.inl rfl)))⟩
                  · subst h
                    exact ⟨a4, a5, Or.inl rfl⟩

/-- Witness for C3: a launch in which every call succeeds. -/
theorem lanzarProcesoPar_exito_testigo :
    (lanzarProcesoPar (some "./proceso_hijo") (some ["proceso_hijo"]) (some none) envExito
        mundoInicial).salida = Salida.retorna E_OK ∧
    ∃ dir pp, (lanzarProcesoPar (some "./proceso_hijo") (some ["proceso_hijo"]) (some none)
        envExito mundoInicial).procesoPar = some (some (dir, pp)) ∧
      pp.activo = 1 ∧ pp.funcionEscucha = none :=
  ⟨by decide,
    (lanzarProcesoPar_exito (some "./proceso_hijo") (some ["proceso_hijo"]) (some none) envExito
      mundoInicial (by decide)).imp fun _ h => h.imp fun _ h => ⟨h.1, h.2.1, h.2.2.1⟩⟩

/-- C4. When the executable path is `NULL` or the output slot is `NULL`,
`lanzarProcesoPar` returns `E_PAR_INC` whatever the environment would have
answered, makes no call at all (no `malloc`, `pipe` or `fork`: descriptors, heap
and trace are untouched) and leaves the output slot as it was. -/
theorem lanzarProcesoPar_parametro_incorrecto (nombre : Option String)
    (lista : Option (List String)) (procesoPar : Option PtrProcesoPar) (e : EntornoLanzar)
    (m : Mundo) (h : nombre = none ∨ procesoPar = none) :
    (lanzarProcesoPar nombre lista procesoPar e m).salida = Salida.retorna E_PAR_INC ∧
    (lanzarProcesoPar nombre lista procesoPar e m).mundo = m ∧
    (lanzarProcesoPar nombre lista procesoPar e m).procesoPar = procesoPar := by
  rcases h with h | h
  · subst h
    simp [lanzarProcesoPar]
  · subst h
    cases nombre <;> simp [lanzarProcesoPar]

/-- Witness for C4: a `NULL` path together with a `malloc` that would fail. -/
theorem lanzarProcesoPar_parametro_incorrecto_testigo :
    ((none : Option String) = none ∨ (some none : Option PtrProcesoPar) = none) ∧
    (lanzarProcesoPar none none (some none)
      { mallocOk := false, basura := ppEjemplo, pipe1Ok := false, pipe2Ok := false,
        fork := -1, execOk := false } mundoInicial).salida = Salida.retorna E_PAR_INC :=
  ⟨Or.inl rfl, (lanzarProcesoPar_parametro_incorrecto none none (some none) _ mundoInicial
    (Or.inl rfl)).1⟩

/-! ## `establecerFuncionDeEscucha` -/

/-- C5, as stated, fails: on an active entity a first registration of the
callback at address 1 returns `E_OK`, and a second registration of the callback
at address 2 returns `E_OK` again, overwrites the stored callback and starts a
second thread. -/
theorem establecerFuncionDeEscucha_dos_veces_contraejemplo :
    (establecerFuncionDeEscucha (some (0, ppEjemplo)) (some 1) ⟨0, 11⟩ mundoActivo).estado = E_OK ∧
    (establecerFuncionDeEscucha
      (establecerFuncionDeEscucha (some (0, ppEjemplo)) (some 1) ⟨0, 11⟩ mundoActivo).procesoPar
      (some 2) ⟨0, 12⟩
      (establecerFuncionDeEscucha (some (0, ppEjemplo)) (some 1) ⟨0, 11⟩ mundoActivo).mundo)
      = ⟨E_OK, some (0, { ppEjemplo with funcionEscucha := some 2, hiloEscucha := 12 }),
          { mundoActivo with traza :=
              [Evento.pthread_create 0 0, Evento.pthread_detach 11,
               Evento.pthread_create 0 0, Evento.pthread_detach 12] }⟩ ∧
    hilosCreados (establecerFuncionDeEscucha
      (establecerFuncionDeEscucha (some (0, ppEjemplo)) (some 1) ⟨0, 11⟩ mundoActivo).procesoPar
      (some 2) ⟨0, 12⟩
      (establecerFuncionDeEscucha (some (0, ppEjemplo)) (some 1) ⟨0, 11⟩ mundoActivo).mundo).mundo.traza
      = 2 := by
  decide

/-- C5, amended. On an active entity, after a registration of `f` that returned
`E_OK`, a second registration of `g` is treated like a first one: it returns
`E_OK` when its `pthread_create` succeeds and `E_CREAR_HILO` otherwise, in both
cases the stored callback becomes `g`, and a second thread-creation request for
the same entity is issued after the first. -/
theorem establecerFuncionDeEscucha_segunda_llamada (dir : Nat) (pp : ProcesoPar_t) (f g : Nat)
    (e1 e2 : EntornoHilo) (m : Mundo) (hact : pp.activo ≠ 0)
    (h1 : (establecerFuncionDeEscucha (some (dir, pp)) (some f) e1 m).estado = E_OK) :
    (establecerFuncionDeEscucha
        (establecerFuncionDeEscucha (some (dir, pp)) (some f) e1 m).procesoPar (some g) e2
        (establecerFuncionDeEscucha (some (dir, pp)) (some f) e1 m).mundo).estado
      = (if e2.resultado = 0 then E_OK else E_CREAR_HILO) ∧
    (∃ pp2, (establecerFuncionDeEscucha
        (establecerFuncionDeEscucha (some (dir, pp)) (some f) e1 m).procesoPar (some g) e2
        (establecerFuncionDeEscucha (some (dir, pp)) (some f) e1 m).mundo).procesoPar
        = some (dir, pp2) ∧ pp2.funcionEscucha = some g ∧ pp2.activo = pp.activo) ∧
    (eventosDesde m.traza.length (establecerFuncionDeEscucha
        (establecerFuncionDeEscucha (some (dir, pp)) (some f) e1 m).procesoPar (some g) e2
        (establecerFuncionDeEscucha (some (dir, pp)) (some f) e1 m).mundo).mundo).filter
        esCreacionDeHilo
      = [Evento.pthread_create dir 0, Evento.pthread_create dir e2.resultado] := by
  by_cases hr1 : e1.resultado = 0
  · by_cases hr2 : e2.resultado = 0
    · simp [establecerFuncionDeEscucha, hact, hr1, hr2, registrar, eventosDesde, esCreacionDeHilo]
    · simp [establecerFuncionDeEscucha, hact, hr1, hr2, registrar, eventosDesde, esCreacionDeHilo]
  · simp [establecerFuncionDeEscucha, hact, hr1, E_OK, E_CREAR_HILO] at h1

/-- Witness for the amended C5. -/
theorem establecerFuncionDeEscucha_segunda_llamada_testigo :
    ppEjemplo.activo ≠ 0 ∧
    (establecerFuncionDeEscucha (some (0, ppEjemplo)) (some 1) ⟨0, 11⟩ mundoActivo).estado = E_OK ∧
    (establecerFuncionDeEscucha
        (establecerFuncionDeEscucha (some (0, ppEjemplo)) (some 1) ⟨0, 11⟩ mundoActivo).procesoPar
        (some 2) ⟨11, 0⟩
        (establecerFuncionDeEscucha (some (0, ppEjemplo)) (some 1) ⟨0, 11⟩ mundoActivo).mundo).estado
      = (if (⟨11, 0⟩ : EntornoHilo).resultado = 0 then E_OK else E_CREAR_HILO) :=
  ⟨by decide, by decide,
    (establecerFuncionDeEscucha_segunda_llamada 0 ppEjemplo 1 2 ⟨0, 11⟩ ⟨11, 0⟩ mundoActivo
      (by decide) (by decide)).1⟩

/-- C6. On an entity with `activo ≠ 0` and a non-`NULL` callback `f`,
`establecerFuncionDeEscucha` returns `E_OK` exactly when `pthread_create` returns
`0` and `E_CREAR_HILO` exactly when it does not; exactly one thread-creation
request is issued, with the entity's address as argument; and on `E_OK` the
stored callback is `f`. With a `NULL` callback it returns `E_PAR_INC` and makes
no call, whatever the entity pointer. -/
theorem establecerFuncionDeEscucha_activo (procesoPar : PtrProcesoPar) (dir : Nat)
    (pp : ProcesoPar_t) (f : Nat) (e : EntornoHilo) (m : Mundo) (hact : pp.activo ≠ 0) :
    ((establecerFuncionDeEscucha (some (dir, pp)) (some f) e m).estado = E_OK ↔ e.resultado = 0) ∧
    ((establecerFuncionDeEscucha (some (dir, pp)) (some f) e m).estado = E_CREAR_HILO ↔
      e.resultado ≠ 0) ∧
    (eventosDesde m.traza.length
        (establecerFuncionDeEscucha (some (dir, pp)) (some f) e m).mundo).filter esCreacionDeHilo
      = [Evento.pthread_create dir e.resultado] ∧
    ((establecerFuncionDeEscucha (some (dir, pp)) (some f) e m).estado = E_OK →
      ∃ pp1, (establecerFuncionDeEscucha (some (dir, pp)) (some f) e m).procesoPar
          = some (dir, pp1) ∧ pp1.funcionEscucha = some f) ∧
    establecerFuncionDeEscucha procesoPar none e m = ⟨E_PAR_INC, procesoPar, m⟩ := by
  refine ⟨?_, ?_, ?_, ?_, ?_⟩
  · by_cases hr : e.resultado = 0 <;>
      simp [establecerFuncionDeEscucha, hact, hr, E_OK, E_CREAR_HILO]
  · by_cases hr : e.resultado = 0 <;>
      simp [establecerFuncionDeEscucha, hact, hr, E_OK, E_CREAR_HILO]
  · by_cases hr : e.resultado = 0 <;>
      simp [establecerFuncionDeEscucha, hact, hr, registrar, eventosDesde, esCreacionDeHilo]
  · by_cases hr : e.resultado = 0 <;>
      simp [establecerFuncionDeEscucha, hact, hr, E_OK, E_CREAR_HILO]
  · cases procesoPar <;> simp [establecerFuncionDeEscucha]

/-- Witness for C6. -/
theorem establecerFuncionDeEscucha_activo_testigo :
    ppEjemplo.activo ≠ 0 ∧
    ((establecerFuncionDeEscucha (some (0, ppEjemplo)) (some 1) ⟨0, 11⟩ mundoActivo).estado = E_OK ↔
      (⟨0, 11⟩ : EntornoHilo).resultado = 0) :=
  ⟨by decide,
    (establecerFuncionDeEscucha_activo none 0 ppEjemplo 1 ⟨0, 11⟩ mundoActivo (by decide)).1⟩

/-! ## The not-active and invalid-argument checks -/

/-- C7. On an entity with `activo = 0`, with a non-`NULL` message of positive
length, respectively a non-`NULL` callback, `enviarMensajeProcesoPar` and
`establecerFuncionDeEscucha` both return `E_PROCESO_INACT`, make no call (no
`write`, no `pthread_create`) and leave the entity as it was. -/
theorem inactivo_rechaza (dir : Nat) (pp : ProcesoPar_t) (buf : List Nat) (longitud : Int)
    (bytesEscritos : Int) (f : Nat) (e : EntornoHilo) (m : Mundo)
    (hin : pp.activo = 0) (hl : 0 < longitud) :
    enviarMensajeProcesoPar (some (dir, pp)) (some buf) longitud bytesEscritos m
      = ⟨E_PROCESO_INACT, some (dir, pp), m⟩ ∧
    establecerFuncionDeEscucha (some (dir, pp)) (some f) e m
      = ⟨E_PROCESO_INACT, some (dir, pp), m⟩ := by
  constructor
  · simp [enviarMensajeProcesoPar, hin, not_le.mpr hl]
  · simp [establecerFuncionDeEscucha, hin]

/-- Witness for C7. -/
theorem inactivo_rechaza_testigo :
    ppInactivo.activo = 0 ∧ (0 : Int) < 5 ∧
    enviarMensajeProcesoPar (some (0, ppInactivo)) (some [72, 79, 76, 65, 10]) 5 5 mundoActivo
      = ⟨E_PROCESO_INACT, some (0, ppInactivo), mundoActivo⟩ :=
  ⟨by decide, by decide,
    (inactivo_rechaza 0 ppInactivo [72, 79, 76, 65, 10] 5 5 1 ⟨0, 11⟩ mundoActivo
      (by decide) (by decide)).1⟩

/-- C8. When the entity pointer is `NULL`, or the message is `NULL`, or
`longitud <= 0`, `enviarMensajeProcesoPar` returns `E_PAR_INC` and makes no
call; this holds whatever the value of `activo`, so the check comes before the
not-active check. -/
theorem enviarMensajeProcesoPar_parametro_incorrecto (procesoPar : PtrProcesoPar)
    (mensaje : Option (List Nat)) (longitud : Int) (bytesEscritos : Int) (m : Mundo)
    (h : procesoPar = none ∨ mensaje = none ∨ longitud ≤ 0) :
    enviarMensajeProcesoPar procesoPar mensaje longitud bytesEscritos m
      = ⟨E_PAR_INC, procesoPar, m⟩ := by
  cases procesoPar with
  | none => simp [enviarMensajeProcesoPar]
  | some p =>
    cases mensaje with
    | none => simp [enviarMensajeProcesoPar]
    | some buf =>
      have hl : longitud ≤ 0 := by simpa using h
      simp [enviarMensajeProcesoPar, hl]

/-- Witness for C8: a negative length on an inactive entity. -/
theorem enviarMensajeProcesoPar_parametro_incorrecto_testigo :
    ((some (0, ppInactivo) : PtrProcesoPar) = none ∨ (some [72] : Option (List Nat)) = none ∨
      (-3 : Int) ≤ 0) ∧
    enviarMensajeProcesoPar (some (0, ppInactivo)) (some [72]) (-3) (-3) mundoActivo
      = ⟨E_PAR_INC, some (0, ppInactivo), mundoActivo⟩ :=
  ⟨Or.inr (Or.inr (by decide)),
    enviarMensajeProcesoPar_parametro_incorrecto (some (0, ppInactivo)) (some [72]) (-3) (-3)
      mundoActivo (Or.inr (Or.inr (by decide)))⟩

/-! ## `enviarMensajeProcesoPar` -/

/-- C9. On an entity with `activo ≠ 0`, a non-`NULL` message and `longitud > 0`,
`enviarMensajeProcesoPar` makes exactly one call, `write(pipeSalida[1], mensaje,
longitud)` (the message as given, `longitud` bytes, nothing appended), returns
`E_OK` exactly when `write` returned `longitud` and `E_ENVIO_FALLO` for every
other value returned (error or short count), and leaves the entity, the
descriptors and the heap as they were. -/
theorem enviarMensajeProcesoPar_activo (dir : Nat) (pp : ProcesoPar_t) (buf : List Nat)
    (longitud : Int) (bytesEscritos : Int) (m : Mundo) (hact : pp.activo ≠ 0)
    (hl : 0 < longitud) :
    (enviarMensajeProcesoPar (some (dir, pp)) (some buf) longitud bytesEscritos m).mundo
      = { m with traza := m.traza ++ [Evento.write pp.pipeSalida.2 buf longitud] } ∧
    ((enviarMensajeProcesoPar (some (dir, pp)) (some buf) longitud bytesEscritos m).estado = E_OK ↔
      bytesEscritos = longitud) ∧
    (bytesEscritos ≠ longitud →
      (enviarMensajeProcesoPar (some (dir, pp)) (some buf) longitud bytesEscritos m).estado
        = E_ENVIO_FALLO) ∧
    (enviarMensajeProcesoPar (some (dir, pp)) (some buf) longitud bytesEscritos m).procesoPar
      = some (dir, pp) := by
  have hl2 : ¬ longitud ≤ 0 := not_le.mpr hl
  by_cases hb : bytesEscritos = longitud
  · have hm : ¬ longitud = -1 := by omega
    subst hb
    simp [enviarMensajeProcesoPar, hact, hl2, hm, registrar]
  · simp [enviarMensajeProcesoPar, hact, hl2, hb, registrar, E_OK, E_ENVIO_FALLO]

/-- Witness for C9: a short write of 2 bytes out of 5. -/
theorem enviarMensajeProcesoPar_activo_testigo :
    ppEjemplo.activo ≠ 0 ∧ (0 : Int) < 5 ∧
    (enviarMensajeProcesoPar (some (0, ppEjemplo)) (some [72, 79, 76, 65, 10]) 5 2
      mundoActivo).estado = E_ENVIO_FALLO :=
  ⟨by decide, by decide,
    (enviarMensajeProcesoPar_activo 0 ppEjemplo [72, 79, 76, 65, 10] 5 2 mundoActivo
      (by decide) (by decide)).2.2.1 (by decide)⟩

/-! ## `hiloEscucha` -/

theorem invocaciones_append (xs ys : List Evento) :
    invocaciones (xs ++ ys) = invocaciones xs ++ invocaciones ys := by
  induction xs with
  | nil => rfl
  | cons x xs ih => cases x <;> simp [invocaciones, ih]

theorem lecturasHechas_append (xs ys : List Evento) :
    lecturasHechas (xs ++ ys) = lecturasHechas xs + lecturasHechas ys := by
  induction xs with
  | nil => simp [lecturasHechas]
  | cons x xs ih => cases x <;> simp [lecturasHechas, ih]; omega

theorem hiloEscucha_general (tabla : Nat → List Nat → Int → Estado_t) (pp : ProcesoPar_t)
    (f : Nat) (hact : pp.activo ≠ 0) (hf : pp.funcionEscucha = some f) :
    ∀ (lecturas : List Lectura) (buffer : List Nat) (traza : List Evento),
      buffer.length = TAM_BUFFER →
      (∀ l ∈ lecturas, l.contenido.length ≤ TAM_BUFFER - 1) →
      invocaciones (hiloEscucha tabla pp lecturas buffer traza).traza
        = invocaciones traza ++
          (lecturas.takeWhile esChunk).map (fun l => (f, l.contenido, l.bytesLeidos)) ∧
      ((∃ l ∈ lecturas, esChunk l = false) →
        (hiloEscucha tabla pp lecturas buffer traza).fin = FinHilo.retorna ∧
        lecturasHechas (hiloEscucha tabla pp lecturas buffer traza).traza
          = lecturasHechas traza + (lecturas.takeWhile esChunk).length + 1) ∧
      ((∀ l ∈ lecturas, esChunk l = true) →
        (hiloEscucha tabla pp lecturas buffer traza).fin = FinHilo.bloqueado) := by
  intro lecturas
  induction lecturas with
  | nil =>
    intro buffer traza _ _
    simp [hiloEscucha, hact, hf]
  | cons l resto ih =>
    intro buffer traza hlen hwf
    have hwl := hwf l (List.mem_cons_self _ _)
    have hwr : ∀ x ∈ resto, x.contenido.length ≤ TAM_BUFFER - 1 :=
      fun x hx => hwf x (List.mem_cons_of_mem _ hx)
    cases l with
    | error =>
      simp [hiloEscucha, hact, hf, Lectura.bytesLeidos, esChunk, invocaciones_append,
        invocaciones, lecturasHechas_append, lecturasHechas]
    | datos bs =>
      cases bs with
      | nil =>
        simp [hiloEscucha, hact, hf, Lectura.bytesLeidos, esChunk, invocaciones_append,
          invocaciones, lecturasHechas_append, lecturasHechas]
      | cons b bs =>
        simp only [Lectura.contenido, TAM_BUFFER, List.length_cons] at hwl hlen
        have hlen1 : (almacenarLectura buffer (b :: bs)).length = TAM_BUFFER := by
          simp only [almacenarLectura, List.length_append, List.length_drop, List.length_cons,
            TAM_BUFFER, hlen]
          omega
        have halm : almacenar (almacenarLectura buffer (b :: bs)) (bs.length + 1) 0
            = some ((almacenarLectura buffer (b :: bs)).set (bs.length + 1) 0) := by
          simp only [almacenar, hlen1, TAM_BUFFER]
          rw [if_pos (by omega)]
        have htake : (((almacenarLectura buffer (b :: bs)).set (bs.length + 1) 0).take
            (bs.length + 1)) = b :: bs := by
          simp [almacenarLectura]
        have hset : ((almacenarLectura buffer (b :: bs)).set (bs.length + 1) 0).length
            = TAM_BUFFER := by
          rw [List.length_set]; exact hlen1
        have hpos : ((b :: bs).length : Int) > 0 := by
          simp only [List.length_cons]; omega
        have htn : (((b :: bs).length : Int)).toNat = bs.length + 1 := by
          simp
        obtain ⟨i1, i2, i3⟩ := ih ((almacenarLectura buffer (b :: bs)).set (bs.length + 1) 0)
          (traza ++ [Evento.read pp.pipeEntrada.1 (TAM_BUFFER - 1)] ++
            [Evento.callback f ((almacenarLectura buffer (b :: bs)).set (bs.length + 1) 0)
              ((b :: bs).length : Int)
              (tabla f ((almacenarLectura buffer (b :: bs)).set (bs.length + 1) 0)
                ((b :: bs).length : Int))]) hset hwr
        have hstep : hiloEscucha tabla pp (Lectura.datos (b :: bs) :: resto) buffer traza
            = hiloEscucha tabla pp resto ((almacenarLectura buffer (b :: bs)).set (bs.length + 1) 0)
              (traza ++ [Evento.read pp.pipeEntrada.1 (TAM_BUFFER - 1)] ++
                [Evento.callback f ((almacenarLectura buffer (b :: bs)).set (bs.length + 1) 0)
                  ((b :: bs).length : Int)
                  (tabla f ((almacenarLectura buffer (b :: bs)).set (bs.length + 1) 0)
                    ((b :: bs).length : Int))]) := by
          rw [hiloEscucha]
          simp only [hact, hf, if_false, Lectura.bytesLeidos, Lectura.contenido, hpos, if_true,
            htn, halm]
        have hch : esChunk (Lectura.datos (b :: bs)) = true := by
          simp only [esChunk, Lectura.bytesLeidos, hpos, decide_True]
        rw [hstep]
        refine ⟨?_, ?_, ?_⟩
        · rw [i1]
          simp only [invocaciones_append, invocaciones, htn, htake, List.takeWhile_cons, hch,
            if_true, List.map_cons, Lectura.contenido, Lectura.bytesLeidos, List.append_nil,
            List.append_assoc, List.singleton_append, List.nil_append]
        · rintro ⟨x, hx, hxf⟩
          have hx2 : ∃ y ∈ resto, esChunk y = false := by
            rcases List.mem_cons.mp hx with h | h
            · subst h; rw [hch] at hxf; exact absurd hxf (by decide)
            · exact ⟨x, h, hxf⟩
          obtain ⟨j1, j2⟩ := i2 hx2
          refine ⟨j1, ?_⟩
          rw [j2]
          simp only [lecturasHechas_append, lecturasHechas, List.takeWhile_cons, hch, if_true,
            List.length_cons]
          omega
        · intro hall
          exact i3 (fun y hy => hall y (List.mem_cons_of_mem _ hy))

/-- C10. With the entity active and a callback `f` registered, the listener
thread, run on any sequence of read results (each of at most 4095 bytes, the
count it requests), invokes `f` once for each result of the longest initial run
of results that carry at least one byte, in order, each time with exactly the
bytes read and their number; if some result is a 0-byte read or an error the
thread returns right after the `read` that produced the first such result (it
issues no further `read` and invokes nothing more), and otherwise it is left
waiting in `read`; and the invocations are the same whatever statuses the
callback returns (`tabla` and `tabla2` are two arbitrary behaviours). -/
theorem hiloEscucha_entrega_en_orden (tabla tabla2 : Nat → List Nat → Int → Estado_t)
    (pp : ProcesoPar_t) (f : Nat) (lecturas : List Lectura) (buffer : List Nat)
    (hact : pp.activo ≠ 0) (hf : pp.funcionEscucha = some f)
    (hlen : buffer.length = TAM_BUFFER)
    (hwf : ∀ l ∈ lecturas, l.contenido.length ≤ TAM_BUFFER - 1) :
    invocaciones (hiloEscucha tabla pp lecturas buffer []).traza
      = (lecturas.takeWhile esChunk).map (fun l => (f, l.contenido, l.bytesLeidos)) ∧
    ((∃ l ∈ lecturas, esChunk l = false) →
      (hiloEscucha tabla pp lecturas buffer []).fin = FinHilo.retorna ∧
      lecturasHechas (hiloEscucha tabla pp lecturas buffer []).traza
        = (lecturas.takeWhile esChunk).length + 1) ∧
    ((∀ l ∈ lecturas, esChunk l = true) →
      (hiloEscucha tabla pp lecturas buffer []).fin = FinHilo.bloqueado) ∧
    invocaciones (hiloEscucha tabla2 pp lecturas buffer []).traza
      = invocaciones (hiloEscucha tabla pp lecturas buffer []).traza := by
  obtain ⟨g1, g2, g3⟩ := hiloEscucha_general tabla pp f hact hf lecturas buffer [] hlen hwf
  obtain ⟨k1, -, -⟩ := hiloEscucha_general tabla2 pp f hact hf lecturas buffer [] hlen hwf
  refine ⟨?_, ?_, g3, ?_⟩
  · simpa [invocaciones] using g1
  · intro h
    simpa [lecturasHechas] using g2 h
  · rw [g1, k1]

/-- Witness for C10: `"PONG\n"` followed by end of file, with a callback that
returns a status other than `E_OK`. -/
theorem hiloEscucha_entrega_en_orden_testigo :
    ppConEscucha.activo ≠ 0 ∧ ppConEscucha.funcionEscucha = some 7 ∧
    bufferEjemplo.length = TAM_BUFFER ∧
    (∀ l ∈ lecturasEjemplo, l.contenido.length ≤ TAM_BUFFER - 1) ∧
    invocaciones (hiloEscucha (fun _ _ _ => E_ENVIO_FALLO) ppConEscucha lecturasEjemplo
        bufferEjemplo []).traza
      = [(7, [80, 79, 78, 71, 10], 5)] :=
  ⟨by decide, by decide, List.length_replicate 4096 0, by decide,
    (hiloEscucha_entrega_en_orden (fun _ _ _ => E_ENVIO_FALLO) (fun _ _ _ => E_OK) ppConEscucha 7
      lecturasEjemplo bufferEjemplo (by decide) (by decide) (List.length_replicate 4096 0)
      (by decide)).1⟩

/-! ## `destruirProcesoPar` -/

/-- C11, as stated, fails: called with `NULL`, `destruirProcesoPar` returns
`E_PAR_INC` (1), which is not `E_PROCESO_INACT` (6). -/
theorem destruirProcesoPar_null_contraejemplo :
    (destruirProcesoPar none envHijoTermina mundoActivo).fin = FinDestruir.retorna E_PAR_INC ∧
    (destruirProcesoPar none envHijoTermina mundoActivo).fin
      ≠ FinDestruir.retorna E_PROCESO_INACT := by
  decide

/-- C11, amended. `destruirProcesoPar` returns `E_PAR_INC` exactly when it is
called with `NULL`; called with an entity that has no child to wait for
(`pid <= 0`) or whose `waitpid` returns, it returns `E_OK` whatever values
`close`, `kill` and `waitpid` return. -/
theorem destruirProcesoPar_estado (procesoPar : PtrProcesoPar) (dir : Nat) (pp : ProcesoPar_t)
    (e : EntornoDestruir) (m : Mundo) (h : pp.pid ≤ 0 ∨ e.waitpid ≠ none) :
    ((destruirProcesoPar procesoPar e m).fin = FinDestruir.retorna E_PAR_INC ↔
      procesoPar = none) ∧
    (destruirProcesoPar (some (dir, pp)) e m).fin = FinDestruir.retorna E_OK := by
  constructor
  · cases procesoPar with
    | none => simp [destruirProcesoPar]
    | some p =>
      obtain ⟨d, q⟩ := p
      simp only [destruirProcesoPar]
      split_ifs <;> try (cases e.waitpid) <;> simp [E_PAR_INC, E_OK]
  · by_cases hin : pp.pipeEntrada.1 = -1 <;> by_cases hout : pp.pipeSalida.2 = -1 <;>
      by_cases hpid : 0 < pp.pid <;> cases hw : e.waitpid <;>
      simp [destruirProcesoPar, hin, hout, hpid, hw] <;>
      exact absurd hw (h.resolve_left (not_le.mpr hpid))

/-- Witness for the amended C11: a child that terminates, with `close`, `kill`
and `waitpid` all reporting failure. -/
theorem destruirProcesoPar_estado_testigo :
    (ppEjemplo.pid ≤ 0 ∨
      ({ close1 := -1, close2 := -1, kill := -1, waitpid := some (-1) } : EntornoDestruir).waitpid
        ≠ none) ∧
    (destruirProcesoPar (some (0, ppEjemplo))
      { close1 := -1, close2 := -1, kill := -1, waitpid := some (-1) } mundoActivo).fin
      = FinDestruir.retorna E_OK :=
  ⟨Or.inr (by decide),
    (destruirProcesoPar_estado none 0 ppEjemplo
      { close1 := -1, close2 := -1, kill := -1, waitpid := some (-1) } mundoActivo
      (Or.inr (by decide))).2⟩

/-- C12, as stated, fails: on an entity with both endpoints open (inbound
`pipeEntrada[0] = 3`, outbound `pipeSalida[1] = 6`) the calls made are
`close(3)`, `close(6)`, `kill`, `waitpid`, `free`, so the outbound endpoint is
not closed before the inbound one. -/
theorem destruirProcesoPar_orden_contraejemplo :
    eventosDeDestruir (some (0, ppEjemplo)) envHijoTermina mundoActivo
      = [Evento.close 3, Evento.close 6, Evento.kill 4321 SIGTERM, Evento.waitpid 4321 0,
         Evento.free 0] ∧
    ocurreAntes (fun ev => decide (ev = Evento.close ppEjemplo.pipeSalida.2))
      (fun ev => decide (ev = Evento.close ppEjemplo.pipeEntrada.1))
      (eventosDeDestruir (some (0, ppEjemplo)) envHijoTermina mundoActivo) = false := by
  decide

/-- C12, amended. For a non-`NULL` entity with both controller-side endpoints
open, every call of `destruirProcesoPar` is made with `activo` already `0`, and
the calls are, in order: `close` of the inbound endpoint `pipeEntrada[0]`,
`close` of the outbound endpoint `pipeSalida[1]`, and then, when there is a
child (`pid > 0`), `kill(pid, SIGTERM)` followed by `waitpid`; `free` comes
last, when `waitpid` has returned or there is no child. -/
theorem destruirProcesoPar_orden (dir : Nat) (pp : ProcesoPar_t) (e : EntornoDestruir)
    (m : Mundo) (hin : pp.pipeEntrada.1 ≠ -1) (hout : pp.pipeSalida.2 ≠ -1) :
    eventosDeDestruir (some (dir, pp)) e m
      = [Evento.close pp.pipeEntrada.1, Evento.close pp.pipeSalida.2] ++
        (if 0 < pp.pid then
          [Evento.kill pp.pid SIGTERM, Evento.waitpid pp.pid 0] ++
            (match e.waitpid with
              | none => []
              | some _ => [Evento.free dir])
         else [Evento.free dir]) ∧
    (∀ paso ∈ (destruirProcesoPar (some (dir, pp)) e m).pasos, paso.2.activo = 0) ∧
    (destruirProcesoPar (some (dir, pp)) e m).mundo.traza
      = m.traza ++ eventosDeDestruir (some (dir, pp)) e m := by
  by_cases hpid : 0 < pp.pid <;> cases hw : e.waitpid <;>
    simp [eventosDeDestruir, destruirProcesoPar, hin, hout, hpid, hw, sysClose, sysFree,
      registrar]

/-- Witness for the amended C12. -/
theorem destruirProcesoPar_orden_testigo :
    ppEjemplo.pipeEntrada.1 ≠ -1 ∧ ppEjemplo.pipeSalida.2 ≠ -1 ∧
    ∀ paso ∈ (destruirProcesoPar (some (0, ppEjemplo)) envHijoTermina mundoActivo).pasos,
      paso.2.activo = 0 :=
  ⟨by decide, by decide,
    (destruirProcesoPar_orden 0 ppEjemplo envHijoTermina mundoActivo (by decide)
      (by decide)).2.1⟩

/-- C13, as stated, fails: after a successful registration of a listener the
calls made by the registration and by `destruirProcesoPar` are
`pthread_create`, `pthread_detach`, `close(3)`, `close(6)`, `kill`, `waitpid`,
`free`; no wait for the listener thread occurs before the close of the inbound
endpoint (descriptor 3) nor before the `free` of the entity. -/
theorem destruirProcesoPar_sin_espera_contraejemplo :
    (destruirProcesoPar
      (establecerFuncionDeEscucha (some (0, ppEjemplo)) (some 7) ⟨0, 11⟩ mundoActivo).procesoPar
      envHijoTermina
      (establecerFuncionDeEscucha (some (0, ppEjemplo)) (some 7) ⟨0, 11⟩ mundoActivo).mundo).mundo.traza
      = [Evento.pthread_create 0 0, Evento.pthread_detach 11, Evento.close 3, Evento.close 6,
         Evento.kill 4321 SIGTERM, Evento.waitpid 4321 0, Evento.free 0] ∧
    ocurreAntes esEsperaDeHilo (fun ev => decide (ev = Evento.close 3))
      [Evento.pthread_create 0 0, Evento.pthread_detach 11, Evento.close 3, Evento.close 6,
       Evento.kill 4321 SIGTERM, Evento.waitpid 4321 0, Evento.free 0] = false ∧
    ocurreAntes esEsperaDeHilo (fun ev => decide (ev = Evento.free 0))
      [Evento.pthread_create 0 0, Evento.pthread_detach 11, Evento.close 3, Evento.close 6,
       Evento.kill 4321 SIGTERM, Evento.waitpid 4321 0, Evento.free 0] = false := by
  decide

/-- C13, amended. For an entity on which a listener was successfully
registered, the registration detaches the listener thread right after creating
it, and the first call made by `destruirProcesoPar` is the `close` of the
inbound endpoint `pipeEntrada[0]`: in the sequence of calls made since the
registration began, no wait for the listener thread occurs before that
`close`. -/
theorem destruirProcesoPar_cierra_sin_esperar (dir : Nat) (pp : ProcesoPar_t) (f : Nat)
    (eh : EntornoHilo) (ed : EntornoDestruir) (m : Mundo)
    (hreg : (establecerFuncionDeEscucha (some (dir, pp)) (some f) eh m).estado = E_OK)
    (hin : pp.pipeEntrada.1 ≠ -1) :
    eventosDesde m.traza.length (establecerFuncionDeEscucha (some (dir, pp)) (some f) eh m).mundo
      = [Evento.pthread_create dir 0, Evento.pthread_detach eh.hilo] ∧
    (eventosDeDestruir (establecerFuncionDeEscucha (some (dir, pp)) (some f) eh m).procesoPar ed
      (establecerFuncionDeEscucha (some (dir, pp)) (some f) eh m).mundo).head?
      = some (Evento.close pp.pipeEntrada.1) ∧
    ocurreAntes esEsperaDeHilo (fun ev => decide (ev = Evento.close pp.pipeEntrada.1))
      (eventosDesde m.traza.length (destruirProcesoPar
        (establecerFuncionDeEscucha (some (dir, pp)) (some f) eh m).procesoPar ed
        (establecerFuncionDeEscucha (some (dir, pp)) (some f) eh m).mundo).mundo) = false := by
  by_cases hact : pp.activo = 0
  · simp [establecerFuncionDeEscucha, hact, E_OK, E_PROCESO_INACT] at hreg
  · by_cases hr : eh.resultado = 0
    · by_cases hout : pp.pipeSalida.2 = -1 <;> by_cases hpid : 0 < pp.pid <;>
        cases hw : ed.waitpid <;>
        simp [establecerFuncionDeEscucha, eventosDeDestruir, destruirProcesoPar, eventosDesde,
          ocurreAntes, esEsperaDeHilo, hact, hr, hin, hout, hpid, hw, sysClose, sysFree,
          registrar]
    · simp [establecerFuncionDeEscucha, hact, hr, E_OK, E_CREAR_HILO] at hreg

/-- Witness for the amended C13. -/
theorem destruirProcesoPar_cierra_sin_esperar_testigo :
    (establecerFuncionDeEscucha (some (0, ppEjemplo)) (some 7) ⟨0, 11⟩ mundoActivo).estado = E_OK ∧
    ppEjemplo.pipeEntrada.1 ≠ -1 ∧
    (eventosDeDestruir
      (establecerFuncionDeEscucha (some (0, ppEjemplo)) (some 7) ⟨0, 11⟩ mundoActivo).procesoPar
      envHijoTermina
      (establecerFuncionDeEscucha (some (0, ppEjemplo)) (some 7) ⟨0, 11⟩ mundoActivo).mundo).head?
      = some (Evento.close ppEjemplo.pipeEntrada.1) :=
  ⟨by decide, by decide,
    (destruirProcesoPar_cierra_sin_esperar 0 ppEjemplo 7 ⟨0, 11⟩ envHijoTermina mundoActivo
      (by decide) (by decide)).2.1⟩

/-- C14. A teardown of an entity whose child never terminates, evaluated: after
`close(3)`, `close(6)` and `kill(4321, SIGTERM)` the call stays blocked in
`waitpid(4321, &status, 0)`; it never returns, and the entity is never freed
(its block, at address 0, is still allocated). -/
theorem destruirProcesoPar_espera_sin_limite :
    (destruirProcesoPar (some (0, ppEjemplo)) envHijoNoTermina mundoActivo).fin
      = FinDestruir.bloqueado ∧
    eventosDeDestruir (some (0, ppEjemplo)) envHijoNoTermina mundoActivo
      = [Evento.close 3, Evento.close 6, Evento.kill 4321 SIGTERM, Evento.waitpid 4321 0] ∧
    (destruirProcesoPar (some (0, ppEjemplo)) envHijoNoTermina mundoActivo).mundo.heap = {0} ∧
    (destruirProcesoPar (some (0, ppEjemplo)) envHijoNoTermina mundoActivo).bloque
      = some { ppEjemplo with activo := 0, pipeEntrada := (-1, 4), pipeSalida := (5, -1) } := by
  decide

/-! ## `establecerFuncionDeEscucha`: what a failed call leaves behind -/

/-- C16. When `establecerFuncionDeEscucha` returns `E_PAR_INC` or
`E_PROCESO_INACT` the entity is exactly as before (in particular
`funcionEscucha` and `activo`); when it returns `E_CREAR_HILO` the entity and
the callback were not `NULL`, exactly one `pthread_create` was attempted, and
afterwards `funcionEscucha` already holds the new callback (the store precedes
the failed `pthread_create` and is not undone) while `activo`, `pid` and the
pipe descriptors are as before; the `hiloEscucha` field, whose address was
handed to `pthread_create`, holds whatever the library left in it. -/
theorem establecerFuncionDeEscucha_fallos (procesoPar : PtrProcesoPar) (f : Option Nat)
    (e : EntornoHilo) (m : Mundo) :
    (((establecerFuncionDeEscucha procesoPar f e m).estado = E_PAR_INC ∨
      (establecerFuncionDeEscucha procesoPar f e m).estado = E_PROCESO_INACT) →
      (establecerFuncionDeEscucha procesoPar f e m).procesoPar = procesoPar) ∧
    ((establecerFuncionDeEscucha procesoPar f e m).estado = E_CREAR_HILO →
      ∃ dir pp fn pp1, procesoPar = some (dir, pp) ∧ f = some fn ∧
        (establecerFuncionDeEscucha procesoPar f e m).procesoPar = some (dir, pp1) ∧
        pp1.funcionEscucha = some fn ∧ pp1.activo = pp.activo ∧
        pp1 = { pp with funcionEscucha := some fn, hiloEscucha := e.hilo } ∧
        (establecerFuncionDeEscucha procesoPar f e m).mundo.traza
          = m.traza ++ [Evento.pthread_create dir e.resultado]) := by
  cases procesoPar with
  | none => simp [establecerFuncionDeEscucha, E_PAR_INC, E_CREAR_HILO]
  | some p =>
    obtain ⟨dir, pp⟩ := p
    cases f with
    | none => simp [establecerFuncionDeEscucha, E_PAR_INC, E_CREAR_HILO]
    | some fn =>
      by_cases hact : pp.activo = 0
      · simp [establecerFuncionDeEscucha, hact, E_PROCESO_INACT, E_CREAR_HILO]
      · by_cases hr : e.resultado = 0
        · simp [establecerFuncionDeEscucha, hact, hr, E_OK, E_PAR_INC, E_PROCESO_INACT,
            E_CREAR_HILO]
        · refine ⟨?_, fun _ => ⟨dir, pp, fn,
            { pp with funcionEscucha := some fn, hiloEscucha := e.hilo },
            rfl, rfl, ?_, rfl, rfl, rfl, ?_⟩⟩
          · simp [establecerFuncionDeEscucha, hact, hr, E_PAR_INC, E_PROCESO_INACT,
              E_CREAR_HILO]
          · simp [establecerFuncionDeEscucha, hact, hr]
          · simp [establecerFuncionDeEscucha, hact, hr, registrar]

/-- Witness for C16: a registration whose `pthread_create` fails after writing
99 into the thread identifier; the callback at address 7 stays stored. -/
theorem establecerFuncionDeEscucha_fallos_testigo :
    (establecerFuncionDeEscucha (some (0, ppEjemplo)) (some 7) envHiloFalla mundoActivo).estado
      = E_CREAR_HILO ∧
    (establecerFuncionDeEscucha (some (0, ppEjemplo)) (some 7) envHiloFalla mundoActivo).procesoPar
      = some (0, { ppEjemplo with funcionEscucha := some 7, hiloEscucha := 99 }) ∧
    ∃ dir pp fn pp1, (some (0, ppEjemplo) : PtrProcesoPar) = some (dir, pp) ∧
      (some 7 : Option Nat) = some fn ∧
      (establecerFuncionDeEscucha (some (0, ppEjemplo)) (some 7) envHiloFalla
        mundoActivo).procesoPar = some (dir, pp1) ∧
      pp1.funcionEscucha = some fn ∧ pp1.activo = pp.activo ∧
      pp1 = { pp with funcionEscucha := some fn, hiloEscucha := envHiloFalla.hilo } ∧
      (establecerFuncionDeEscucha (some (0, ppEjemplo)) (some 7) envHiloFalla
        mundoActivo).mundo.traza
        = mundoActivo.traza ++ [Evento.pthread_create dir envHiloFalla.resultado] :=
  ⟨by decide, by decide,
    (establecerFuncionDeEscucha_fallos (some (0, ppEjemplo)) (some 7) envHiloFalla
      mundoActivo).2 (by decide)⟩

/-! ## `hiloEscucha`: buffer bounds -/

theorem hiloEscucha_limites_general (tabla : Nat → List Nat → Int → Estado_t) (pp : ProcesoPar_t) :
    ∀ (lecturas : List Lectura) (buffer : List Nat) (traza : List Evento),
      buffer.length = TAM_BUFFER →
      (∀ l ∈ lecturas, l.contenido.length ≤ TAM_BUFFER - 1) →
      (∀ ev ∈ traza, dentroDeLimites ev) →
      (hiloEscucha tabla pp lecturas buffer traza).fin ≠ FinHilo.fueraDeLimites ∧
      ∀ ev ∈ (hiloEscucha tabla pp lecturas buffer traza).traza, dentroDeLimites ev := by
  intro lecturas
  induction lecturas with
  | nil =>
    intro buffer traza _ _ htr
    by_cases hact : pp.activo = 0
    · simpa [hiloEscucha, hact] using htr
    · cases hf : pp.funcionEscucha <;> simpa [hiloEscucha, hact, hf] using htr
  | cons l resto ih =>
    intro buffer traza hlen hwf htr
    by_cases hact : pp.activo = 0
    · rw [hiloEscucha]; simpa [hact] using htr
    · cases hf : pp.funcionEscucha with
      | none => rw [hiloEscucha]; simpa [hact, hf] using htr
      | some f =>
        have hwl := hwf l (List.mem_cons_self _ _)
        have hwr : ∀ x ∈ resto, x.contenido.length ≤ TAM_BUFFER - 1 :=
          fun x hx => hwf x (List.mem_cons_of_mem _ hx)
        have hread : ∀ ev ∈ traza ++ [Evento.read pp.pipeEntrada.1 (TAM_BUFFER - 1)],
            dentroDeLimites ev := by
          intro ev hev
          rcases List.mem_append.mp hev with h | h
          · exact htr ev h
          · rw [List.mem_singleton.mp h]; exact le_refl _
        cases l with
        | error =>
          rw [hiloEscucha]
          simpa [hact, hf, Lectura.bytesLeidos] using hread
        | datos bs =>
          cases bs with
          | nil =>
            rw [hiloEscucha]
            simpa [hact, hf, Lectura.bytesLeidos] using hread
          | cons b bs =>
            simp only [Lectura.contenido, TAM_BUFFER, List.length_cons] at hwl hlen
            have hlen1 : (almacenarLectura buffer (b :: bs)).length = TAM_BUFFER := by
              simp only [almacenarLectura, List.length_append, List.length_drop,
                List.length_cons, TAM_BUFFER, hlen]
              omega
            have halm : almacenar (almacenarLectura buffer (b :: bs)) (bs.length + 1) 0
                = some ((almacenarLectura buffer (b :: bs)).set (bs.length + 1) 0) := by
              simp only [almacenar, hlen1, TAM_BUFFER]
              rw [if_pos (by omega)]
            have hset : ((almacenarLectura buffer (b :: bs)).set (bs.length + 1) 0).length
                = TAM_BUFFER := by
              rw [List.length_set]; exact hlen1
            have hpos : ((b :: bs).length : Int) > 0 := by
              simp only [List.length_cons]; omega
            have htn : (((b :: bs).length : Int)).toNat = bs.length + 1 := by
              simp
            have hcb : ∀ ev ∈ traza ++ [Evento.read pp.pipeEntrada.1 (TAM_BUFFER - 1)] ++
                [Evento.callback f ((almacenarLectura buffer (b :: bs)).set (bs.length + 1) 0)
                  ((b :: bs).length : Int)
                  (tabla f ((almacenarLectura buffer (b :: bs)).set (bs.length + 1) 0)
                    ((b :: bs).length : Int))], dentroDeLimites ev := by
              intro ev hev
              rcases List.mem_append.mp hev with h | h
              · exact hread ev h
              · rw [List.mem_singleton.mp h]
                refine ⟨by omega, ?_, hset, ?_⟩
                · simp only [List.length_cons, TAM_BUFFER]; omega
                · rw [htn]
                  have hlt : bs.length + 1 < (almacenarLectura buffer (b :: bs)).length := by
                    rw [hlen1, TAM_BUFFER]; omega
                  simp [hlt]
            have hstep : hiloEscucha tabla pp (Lectura.datos (b :: bs) :: resto) buffer traza
                = hiloEscucha tabla pp resto
                  ((almacenarLectura buffer (b :: bs)).set (bs.length + 1) 0)
                  (traza ++ [Evento.read pp.pipeEntrada.1 (TAM_BUFFER - 1)] ++
                    [Evento.callback f
                      ((almacenarLectura buffer (b :: bs)).set (bs.length + 1) 0)
                      ((b :: bs).length : Int)
                      (tabla f ((almacenarLectura buffer (b :: bs)).set (bs.length + 1) 0)
                        ((b :: bs).length : Int))]) := by
              rw [hiloEscucha]
              simp only [hact, hf, if_false, Lectura.bytesLeidos, Lectura.contenido, hpos,
                if_true, htn, halm]
            rw [hstep]
            exact ih _ _ hset hwr hcb

/-- C17. Run on read results of at most 4095 bytes each (the count every
`read` of the thread asks for) with its 4096-byte buffer, the listener thread
never stores outside the buffer; every `read` it issues asks for at most 4095
bytes; every callback it invokes is given the 4096-byte buffer and a length
`n` with `1 <= n <= 4095`, the terminating `NUL` standing at index `n` of the
buffer; and the lengths passed to the callback are, in order, the values
returned by the successful reads. -/
theorem hiloEscucha_dentro_del_buffer (tabla : Nat → List Nat → Int → Estado_t)
    (pp : ProcesoPar_t) (lecturas : List Lectura) (buffer : List Nat)
    (hlen : buffer.length = TAM_BUFFER)
    (hwf : ∀ l ∈ lecturas, l.contenido.length ≤ TAM_BUFFER - 1) :
    (hiloEscucha tabla pp lecturas buffer []).fin ≠ FinHilo.fueraDeLimites ∧
    (∀ ev ∈ (hiloEscucha tabla pp lecturas buffer []).traza, dentroDeLimites ev) ∧
    (∀ f, pp.activo ≠ 0 → pp.funcionEscucha = some f →
      (invocaciones (hiloEscucha tabla pp lecturas buffer []).traza).map (fun i => i.2.2)
        = (lecturas.takeWhile esChunk).map Lectura.bytesLeidos) := by
  obtain ⟨g1, g2⟩ := hiloEscucha_limites_general tabla pp lecturas buffer [] hlen hwf
    (fun _ h => absurd h (List.not_mem_nil _))
  refine ⟨g1, g2, ?_⟩
  intro f hact hf
  rw [(hiloEscucha_general tabla pp f hact hf lecturas buffer [] hlen hwf).1]
  simp [invocaciones]

/-- Witness for C17. -/
theorem hiloEscucha_dentro_del_buffer_testigo :
    bufferEjemplo.length = TAM_BUFFER ∧
    (∀ l ∈ lecturasEjemplo, l.contenido.length ≤ TAM_BUFFER - 1) ∧
    (hiloEscucha (fun _ _ _ => E_OK) ppConEscucha lecturasEjemplo bufferEjemplo []).fin
      ≠ FinHilo.fueraDeLimites :=
  ⟨List.length_replicate 4096 0, by decide,
    (hiloEscucha_dentro_del_buffer (fun _ _ _ => E_OK) ppConEscucha lecturasEjemplo
      bufferEjemplo (List.length_replicate 4096 0) (by decide)).1⟩

/-! ## The example subordinate -/

end ProcesosPares
